import Mathlib

/-!
Shallow embedding of the tangentsffrpg-db request-handling core.

The repository has two source files, each defining a Genkit flow
`rpgAssistantFlow` and a callable Cloud Function entry point:
  * `src/functions/src/index.ts` — flow plus endpoint `callRpgAssistantV3`,
    embedded here in namespace `V3`;
  * `src/unnamed/part_000` — flow plus endpoint `callRpgAssistantV2`,
    embedded here in namespace `V2`.

The generative-model client (`ai.generate`) is external; it is modelled as a
parameter of type `ModelClient`.  Every definition returns, besides its
result, the list of arguments of the calls it made to the model client, so
that "the Inference Flow is never invoked" and "the model client is invoked
at most once" are statable.
-/

namespace TangentRpg

/-- A JavaScript runtime value, as far as the untyped payload fields
(`request.data.userPrompt` is received as `any`) need it. -/
inductive Value where
  | str (s : String)
  | num (n : Int)
  | bool (b : Bool)
  | null
  | arr (elems : List Value)
  | obj (fields : List (String × Value))

/-- JavaScript string coercion, the semantics of the template literal
interpolation in index.ts line 89 (response: `${aiResponseText}`). -/
def jsToString : Value → String
  | .str s => s
  | .num n => toString n
  | .bool true => "true"
  | .bool false => "false"
  | .null => "null"
  | .arr elems => String.intercalate "," (elems.attach.map (fun v => jsToString v.1))
  | .obj _ => "[object Object]"
decreasing_by
  have := List.sizeOf_lt_of_mem v.2
  simp only [Value.arr.sizeOf_spec]
  omega

/-- JavaScript truthiness of a possibly-absent value (`!userPrompt` in both
endpoints; `none` models an absent / `undefined` field). -/
def jsTruthy : Option Value → Bool
  | none => false
  | some .null => false
  | some (.str s) => !s.isEmpty
  | some (.num n) => n != 0
  | some (.bool b) => b
  | some (.arr _) => true
  | some (.obj _) => true

/-- The check `typeof userPrompt === "string"`. -/
def typeofIsString : Option Value → Bool
  | some (.str _) => true
  | _ => false

/-- Extract the underlying string of a value known to be a string
(the endpoints only reach the flow after the typeof check passes). -/
def asString : Option Value → String
  | some (.str s) => s
  | _ => ""

/-- One `{ text: string }` part of a conversation turn
(inputSchema of rpgAssistantFlow). -/
structure TextPart where
  text : String
deriving DecidableEq, Repr

/-- A turn role, the `z.enum(["user", "model"])` of the input schema. -/
inductive Role where
  | user
  | model
deriving DecidableEq, Repr

/-- One historical conversation turn (inputSchema of rpgAssistantFlow). -/
structure ConversationTurn where
  role : Role
  parts : List TextPart
deriving DecidableEq, Repr

/-- Generation parameters, the `config` object passed to `ai.generate`. -/
structure GenConfig where
  temperature : ℚ
  maxOutputTokens : ℕ
deriving DecidableEq, Repr

/-- The argument object of one `ai.generate` call:
`{ prompt, history, config }`. -/
structure GenerateArgs where
  prompt : String
  history : Option (List ConversationTurn)
  config : GenConfig
deriving DecidableEq, Repr

/-- An arbitrary JavaScript error thrown by the model client; it carries a
message so that non-propagation of the message (C4) is statable. -/
structure JsError where
  message : String
deriving DecidableEq, Repr

/-- The model response object, of which both flow versions read only the
text content (`response.text()` in V3, `response.text` in V2).  The text is
kept as a `Value` so that the hypothetical of a client returning a richer
structure than a plain string is statable. -/
structure GenerateResponse where
  text : Value

/-- The external generative-model client (`ai.generate`): it either returns
a response or throws. -/
def ModelClient : Type :=
  GenerateArgs → Except JsError GenerateResponse

/-- The typed input of `rpgAssistantFlow` after its inputSchema:
`{ userPrompt: string, conversationHistory?: ConversationTurn[] }`. -/
structure FlowInput where
  userPrompt : String
  conversationHistory : Option (List ConversationTurn)
deriving DecidableEq, Repr

/-- Genkit validates a flow result against the declared
`outputSchema: z.string()`; a non-string flow result is a flow failure. -/
def validateFlowOutput (v : Value) : Except JsError Value :=
  match v with
  | .str s => .ok (.str s)
  | _ => .error { message := "Schema validation failed: expected string" }

/-- The three client-visible error codes of the callable endpoints. -/
inductive ErrorCode where
  | unauthenticated
  | invalidArgument
  | internal
deriving DecidableEq, Repr

/-- An `HttpsError` thrown to the caller: code plus client-visible message. -/
structure HttpsError where
  code : ErrorCode
  message : String
deriving DecidableEq, Repr

/-- The caller identity attached by the transport layer, `request.auth`. -/
structure AuthContext where
  uid : String
deriving DecidableEq, Repr

/-- The raw, untrusted request payload `request.data`.  `userPrompt` is kept
untyped (`Option Value`) because the endpoint validates it at runtime. -/
structure RequestData where
  userPrompt : Option Value
  conversationHistory : Option (List ConversationTurn)

/-- A `CallableRequest`: optional auth context plus payload. -/
structure CallableRequest where
  auth : Option AuthContext
  data : RequestData

/-- The success envelope `{ response: ... }`.  The field is kept as a
`Value` so that the invariant that it is always a primitive string (C5) is a
theorem rather than a typing artifact. -/
structure ResponseEnvelope where
  response : Value

namespace V3

/-- The composite instruction string of index.ts line 50: the template
literal holds only the fixed persona framing. -/
def fullPrompt : String :=
  "You are Bastion, a helpful assistant for the Tangent SFF RPG."

/-- The argument object of the one `ai.generate` call of the flow body,
index.ts lines 51-55. -/
def generateArgs (input : FlowInput) : GenerateArgs :=
  { prompt := fullPrompt
    history := input.conversationHistory
    config := { temperature := 7 / 10, maxOutputTokens := 500 } }

/-- The flow body of index.ts lines 48-57, composed with the outputSchema
check of its `z.string()` declaration; the second component is the list of
model-client calls made. -/
def rpgAssistantFlow (client : ModelClient) (input : FlowInput) :
    Except JsError Value × List GenerateArgs :=
  match client (generateArgs input) with
  | .ok resp => (validateFlowOutput resp.text, [generateArgs input])
  | .error e => (.error e, [generateArgs input])

/-- The endpoint `callRpgAssistantV3` of index.ts lines 64-97: auth gate,
userPrompt validation gate, flow execution with string interpolation of the
result, catch-all mapping to `internal`. -/
def callRpgAssistantV3 (client : ModelClient) (request : CallableRequest) :
    Except HttpsError ResponseEnvelope × List GenerateArgs :=
  match request.auth with
  | none =>
      (.error { code := .unauthenticated
                message := "The function requires authentication." }, [])
  | some _ =>
      let userPrompt := request.data.userPrompt
      if !jsTruthy userPrompt || !typeofIsString userPrompt then
        (.error { code := .invalidArgument
                  message := "The function expects a valid \"userPrompt\" string." }, [])
      else
        match rpgAssistantFlow client
            { userPrompt := asString userPrompt
              conversationHistory := request.data.conversationHistory } with
        | (.ok v, calls) =>
            (.ok { response := .str (jsToString v) }, calls)
        | (.error _, calls) =>
            (.error { code := .internal
                      message := "An internal error occurred. Check function logs for debug trace." },
             calls)

end V3

namespace V2

/-- The composite instruction string of part_000 lines 55-57: persona
framing with the caller's userPrompt interpolated; the template literal
keeps its embedded newlines and indentation. -/
def fullPrompt (userPrompt : String) : String :=
  "You are Bastion, a helpful, creative, and knowledgeable assistant for the Tangent SFF RPG.\n        The user's current request is: \"" ++
    userPrompt ++
    "\"\n        Please provide a concise, relevant, and creative response."

/-- The argument object of the one `ai.generate` call of the flow body,
part_000 lines 58-65. -/
def generateArgs (input : FlowInput) : GenerateArgs :=
  { prompt := fullPrompt input.userPrompt
    history := input.conversationHistory
    config := { temperature := 7 / 10, maxOutputTokens := 500 } }

/-- The flow body of part_000 lines 51-68, composed with the outputSchema
check of its `z.string()` declaration; the second component is the list of
model-client calls made. -/
def rpgAssistantFlow (client : ModelClient) (input : FlowInput) :
    Except JsError Value × List GenerateArgs :=
  match client (generateArgs input) with
  | .ok resp => (validateFlowOutput resp.text, [generateArgs input])
  | .error e => (.error e, [generateArgs input])

/-- The endpoint `callRpgAssistantV2` of part_000 lines 73-111: auth gate,
userPrompt validation gate, flow execution with the flow result returned
directly in the envelope, catch-all mapping to `internal`. -/
def callRpgAssistantV2 (client : ModelClient) (request : CallableRequest) :
    Except HttpsError ResponseEnvelope × List GenerateArgs :=
  match request.auth with
  | none =>
      (.error { code := .unauthenticated
                message := "The AI assistant requires authentication." }, [])
  | some _ =>
      let userPrompt := request.data.userPrompt
      if !jsTruthy userPrompt || !typeofIsString userPrompt then
        (.error { code := .invalidArgument
                  message := "The function expects a valid \"userPrompt\" string." }, [])
      else
        match rpgAssistantFlow client
            { userPrompt := asString userPrompt
              conversationHistory := request.data.conversationHistory } with
        | (.ok v, calls) =>
            (.ok { response := v }, calls)
        | (.error _, calls) =>
            (.error { code := .internal
                      message := "An internal error occurred while processing your request. Check the function logs for details." },
             calls)

end V2

/-- A model client that echoes its prompt back as the response text. -/
def echoClient : ModelClient :=
  fun args => .ok { text := .str args.prompt }

/-- A model client that always throws, with a distinctive message. -/
def failingClient : ModelClient :=
  fun _ => .error { message := "boom: provider unavailable" }

/-- A model client that returns a non-string (richer) structure as text. -/
def richClient : ModelClient :=
  fun _ => .ok { text := .obj [("candidates", .num 1)] }

/-- The model-client call trace of one V3 flow invocation: exactly one call,
with the flow's generate arguments. -/
theorem flowV3_calls (client : ModelClient) (input : FlowInput) :
    (V3.rpgAssistantFlow client input).2 = [V3.generateArgs input] := by
  unfold V3.rpgAssistantFlow
  cases hc : client (V3.generateArgs input) <;> rfl

/-- The model-client call trace of one V2 flow invocation. -/
theorem flowV2_calls (client : ModelClient) (input : FlowInput) :
    (V2.rpgAssistantFlow client input).2 = [V2.generateArgs input] := by
  unfold V2.rpgAssistantFlow
  cases hc : client (V2.generateArgs input) <;> rfl

/-- A successful flow result is a string value (outputSchema, V3). -/
theorem flowV3_ok_str (client : ModelClient) (input : FlowInput) (v : Value)
    (h : (V3.rpgAssistantFlow client input).1 = .ok v) : ∃ s, v = .str s := by
  unfold V3.rpgAssistantFlow at h
  rcases hc : client (V3.generateArgs input) with e | resp
  all_goals rw [hc] at h
  · simp at h
  · rcases resp with ⟨t⟩
    cases t <;> simp_all [validateFlowOutput]
    exact ⟨_, h.symm⟩

/-- A successful flow result is a string value (outputSchema, V2). -/
theorem flowV2_ok_str (client : ModelClient) (input : FlowInput) (v : Value)
    (h : (V2.rpgAssistantFlow client input).1 = .ok v) : ∃ s, v = .str s := by
  unfold V2.rpgAssistantFlow at h
  rcases hc : client (V2.generateArgs input) with e | resp
  all_goals rw [hc] at h
  · simp at h
  · rcases resp with ⟨t⟩
    cases t <;> simp_all [validateFlowOutput]
    exact ⟨_, h.symm⟩

/-- The validation guard passes on a non-empty string userPrompt. -/
theorem guard_false_of_ne (s : String) (hs : s ≠ "") :
    (!jsTruthy (some (.str s)) || !typeofIsString (some (.str s))) = false := by
  have hemp : s.isEmpty = false := by
    cases hempty : s.isEmpty
    · rfl
    · exact absurd ((String.isEmpty_iff s).mp hempty) hs
  simp [jsTruthy, typeofIsString, hemp]

/-- The validation guard fires when userPrompt is no string or the empty
string. -/
theorem guard_true_of_invalid (p : Option Value)
    (h : (∀ s : String, p ≠ some (.str s)) ∨ p = some (.str "")) :
    (!jsTruthy p || !typeofIsString p) = true := by
  rcases h with h | h
  · cases p with
    | none => rfl
    | some v =>
      cases v with
      | str s => exact absurd rfl (h s)
      | num n => simp [jsTruthy, typeofIsString]
      | bool b => simp [jsTruthy, typeofIsString]
      | null => rfl
      | arr elems => simp [jsTruthy, typeofIsString]
      | obj fields => simp [jsTruthy, typeofIsString]
  · subst h
    rfl

set_option maxRecDepth 8192 in
/-- C1: refuted on index.ts — the V3 flow's composite instruction string is
the fixed persona framing alone and does not embed the caller's userPrompt:
on userPrompt "hello" the one model-client call carries a prompt in which
"hello" does not occur, and the entire client interaction is independent of
the userPrompt; the sibling V2 flow does embed the userPrompt in its
composite, evidencing the intended behavior the claim describes. -/
theorem C1_v3_composite_omits_userPrompt :
    ((V3.rpgAssistantFlow echoClient
        { userPrompt := "hello", conversationHistory := none }).2.map
      GenerateArgs.prompt = [V3.fullPrompt]) ∧
    (∀ client : ModelClient, ∀ p1 p2 : String,
      ∀ hist : Option (List ConversationTurn),
      V3.rpgAssistantFlow client { userPrompt := p1, conversationHistory := hist } =
        V3.rpgAssistantFlow client { userPrompt := p2, conversationHistory := hist }) ∧
    ¬ ("hello".toList <:+: V3.fullPrompt.toList) ∧
    ("hello".toList <:+: (V2.fullPrompt "hello").toList) := by
  refine ⟨?_, ?_, ?_, ?_⟩
  · rw [flowV3_calls]
    rfl
  · intro client p1 p2 hist
    rfl
  · decide
  · decide

/-- C2: an unauthenticated call to either callable endpoint yields the
Unauthenticated error, whatever the payload and the model client, and no
model-client call is made (the Inference Flow is never invoked). -/
theorem C2_unauthenticated_rejected (clientA clientB : ModelClient)
    (dataA dataB : RequestData) :
    V3.callRpgAssistantV3 clientA { auth := none, data := dataA } =
      (.error { code := .unauthenticated
                message := "The function requires authentication." }, []) ∧
    V2.callRpgAssistantV2 clientB { auth := none, data := dataB } =
      (.error { code := .unauthenticated
                message := "The AI assistant requires authentication." }, []) :=
  ⟨rfl, rfl⟩

/-- C8: every model-client call a flow invocation makes carries the fixed
generation parameters temperature 7/10 and maxOutputTokens 500, for every
client and every input, in both versions. -/
theorem C8_fixed_generation_config (client : ModelClient) (input : FlowInput) :
    (V3.rpgAssistantFlow client input).2.map GenerateArgs.config =
      [{ temperature := 7 / 10, maxOutputTokens := 500 }] ∧
    (V2.rpgAssistantFlow client input).2.map GenerateArgs.config =
      [{ temperature := 7 / 10, maxOutputTokens := 500 }] := by
  rw [flowV3_calls, flowV2_calls]
  exact ⟨rfl, rfl⟩

/-- C9: on any endpoint call the model client is invoked at most once, and
with an always-failing client a valid authenticated request surfaces as the
Internal error after exactly one attempt, with no re-attempt. -/
theorem C9_model_client_at_most_once (client : ModelClient)
    (request : CallableRequest) :
    (V3.callRpgAssistantV3 client request).2.length ≤ 1 ∧
    (V2.callRpgAssistantV2 client request).2.length ≤ 1 ∧
    V3.callRpgAssistantV3 failingClient
        { auth := some { uid := "u1" }
          data := { userPrompt := some (.str "hi"), conversationHistory := none } } =
      (.error { code := .internal
                message := "An internal error occurred. Check function logs for debug trace." },
       [V3.generateArgs { userPrompt := "hi", conversationHistory := none }]) ∧
    V2.callRpgAssistantV2 failingClient
        { auth := some { uid := "u1" }
          data := { userPrompt := some (.str "hi"), conversationHistory := none } } =
      (.error { code := .internal
                message := "An internal error occurred while processing your request. Check the function logs for details." },
       [V2.generateArgs { userPrompt := "hi", conversationHistory := none }]) := by
  refine ⟨?_, ?_, rfl, rfl⟩
  · obtain ⟨auth, data⟩ := request
    cases auth with
    | none => simp [V3.callRpgAssistantV3]
    | some a =>
      simp only [V3.callRpgAssistantV3]
      split
      · simp
      · rcases h : V3.rpgAssistantFlow client { userPrompt := asString data.userPrompt, conversationHistory := data.conversationHistory } with ⟨r, calls⟩
        have hlen : calls.length = 1 := by
          have := congrArg (fun p => p.2.length) h
          simpa [flowV3_calls] using this.symm
        cases r <;> simp [hlen]
  · obtain ⟨auth, data⟩ := request
    cases auth with
    | none => simp [V2.callRpgAssistantV2]
    | some a =>
      simp only [V2.callRpgAssistantV2]
      split
      · simp
      · rcases h : V2.rpgAssistantFlow client { userPrompt := asString data.userPrompt, conversationHistory := data.conversationHistory } with ⟨r, calls⟩
        have hlen : calls.length = 1 := by
          have := congrArg (fun p => p.2.length) h
          simpa [flowV2_calls] using this.symm
        cases r <;> simp [hlen]

/-- C3: an authenticated call whose userPrompt is the empty string, null,
absent, or any non-string value yields the InvalidArgument error and makes
no model-client call (the Inference Flow is never invoked), in both
versions. -/
theorem C3_invalid_userPrompt_rejected (client : ModelClient)
    (a : AuthContext) (p : Option Value)
    (hist : Option (List ConversationTurn))
    (h : (∀ s : String, p ≠ some (.str s)) ∨ p = some (.str "")) :
    V3.callRpgAssistantV3 client
        { auth := some a, data := { userPrompt := p, conversationHistory := hist } } =
      (.error { code := .invalidArgument
                message := "The function expects a valid \"userPrompt\" string." }, []) ∧
    V2.callRpgAssistantV2 client
        { auth := some a, data := { userPrompt := p, conversationHistory := hist } } =
      (.error { code := .invalidArgument
                message := "The function expects a valid \"userPrompt\" string." }, []) := by
  have hg := guard_true_of_invalid p h
  constructor
  · simp [V3.callRpgAssistantV3, hg]
  · simp [V2.callRpgAssistantV2, hg]

/-- C3 witness: concrete authenticated call with the empty-string
userPrompt. -/
theorem C3_invalid_userPrompt_witness :
    ((∀ s : String, (some (Value.str "") : Option Value) ≠ some (.str s)) ∨
        (some (Value.str "") : Option Value) = some (.str "")) ∧
    V3.callRpgAssistantV3 echoClient
        { auth := some { uid := "u1" }
          data := { userPrompt := some (.str ""), conversationHistory := none } } =
      (.error { code := .invalidArgument
                message := "The function expects a valid \"userPrompt\" string." }, []) :=
  ⟨Or.inr rfl,
   (C3_invalid_userPrompt_rejected echoClient { uid := "u1" } (some (.str ""))
      none (Or.inr rfl)).1⟩

/-- C4: when the model client throws any error — and likewise when it
returns a result the flow's output schema rejects — the endpoint result is
the Internal error whose message is a fixed constant, independent of the
thrown error and its message, in both versions. -/
theorem C4_flow_failure_collapses_to_internal (e : JsError)
    (a : AuthContext) (s : String) (hs : s ≠ "")
    (hist : Option (List ConversationTurn)) :
    (V3.callRpgAssistantV3 (fun _ => .error e)
        { auth := some a
          data := { userPrompt := some (.str s), conversationHistory := hist } }).1 =
      .error { code := .internal
               message := "An internal error occurred. Check function logs for debug trace." } ∧
    (V2.callRpgAssistantV2 (fun _ => .error e)
        { auth := some a
          data := { userPrompt := some (.str s), conversationHistory := hist } }).1 =
      .error { code := .internal
               message := "An internal error occurred while processing your request. Check the function logs for details." } ∧
    (V3.callRpgAssistantV3 richClient
        { auth := some a
          data := { userPrompt := some (.str s), conversationHistory := hist } }).1 =
      .error { code := .internal
               message := "An internal error occurred. Check function logs for debug trace." } := by
  have hg := guard_false_of_ne s hs
  refine ⟨?_, ?_, ?_⟩
  · simp [V3.callRpgAssistantV3, V3.rpgAssistantFlow, hg]
  · simp [V2.callRpgAssistantV2, V2.rpgAssistantFlow, hg]
  · simp [V3.callRpgAssistantV3, V3.rpgAssistantFlow, richClient, validateFlowOutput, hg]

/-- C4 witness: a concrete throwing client on a concrete authenticated,
valid request collapses to the Internal error. -/
theorem C4_flow_failure_witness :
    ("hi" : String) ≠ "" ∧
    (V3.callRpgAssistantV3 (fun _ => .error { message := "boom: provider unavailable" })
        { auth := some { uid := "u2" }
          data := { userPrompt := some (.str "hi"), conversationHistory := none } }).1 =
      .error { code := .internal
               message := "An internal error occurred. Check function logs for debug trace." } :=
  ⟨by decide,
   (C4_flow_failure_collapses_to_internal { message := "boom: provider unavailable" }
      { uid := "u2" } "hi" (by decide) none).1⟩

/-- A successful V3 endpoint result has a string response. -/
theorem callV3_ok_str (client : ModelClient) (request : CallableRequest)
    (env : ResponseEnvelope)
    (h : (V3.callRpgAssistantV3 client request).1 = .ok env) :
    ∃ s, env.response = .str s := by
  obtain ⟨auth, data⟩ := request
  cases auth with
  | none => simp [V3.callRpgAssistantV3] at h
  | some a =>
    simp only [V3.callRpgAssistantV3] at h
    split at h
    · simp at h
    · rcases hf : V3.rpgAssistantFlow client
          { userPrompt := asString data.userPrompt
            conversationHistory := data.conversationHistory } with ⟨r, calls⟩
      rw [hf] at h
      cases r with
      | ok v =>
        simp at h
        exact ⟨jsToString v, by rw [← h]⟩
      | error e => simp at h

/-- A successful V2 endpoint result has a string response. -/
theorem callV2_ok_str (client : ModelClient) (request : CallableRequest)
    (env : ResponseEnvelope)
    (h : (V2.callRpgAssistantV2 client request).1 = .ok env) :
    ∃ s, env.response = .str s := by
  obtain ⟨auth, data⟩ := request
  cases auth with
  | none => simp [V2.callRpgAssistantV2] at h
  | some a =>
    simp only [V2.callRpgAssistantV2] at h
    split at h
    · simp at h
    · rcases hf : V2.rpgAssistantFlow client
          { userPrompt := asString data.userPrompt
            conversationHistory := data.conversationHistory } with ⟨r, calls⟩
      rw [hf] at h
      cases r with
      | ok v =>
        obtain ⟨s, rfl⟩ := flowV2_ok_str client
          { userPrompt := asString data.userPrompt
            conversationHistory := data.conversationHistory } v (by rw [hf])
        simp at h
        exact ⟨s, by rw [← h]⟩
      | error e => simp at h

/-- C5: every successful endpoint call returns an envelope whose response
field is a primitive string value — each endpoint covered on its own, for
every client and request that make that endpoint succeed. -/
theorem C5_response_is_primitive_string (client : ModelClient)
    (request : CallableRequest) :
    (∀ env, (V3.callRpgAssistantV3 client request).1 = .ok env →
      ∃ s, env.response = .str s) ∧
    (∀ env, (V2.callRpgAssistantV2 client request).1 = .ok env →
      ∃ s, env.response = .str s) :=
  ⟨fun env h => callV3_ok_str client request env h,
   fun env h => callV2_ok_str client request env h⟩

/-- C5 witness: each conclusion instantiated on a concrete successful call
through the echoing client. -/
theorem C5_response_witness :
    (∃ s, (ResponseEnvelope.mk (.str V3.fullPrompt)).response = .str s) ∧
    (∃ s, (ResponseEnvelope.mk (.str (V2.fullPrompt "hello"))).response = .str s) :=
  ⟨(C5_response_is_primitive_string echoClient
      { auth := some { uid := "u1" }
        data := { userPrompt := some (.str "hello"), conversationHistory := none } }).1
    { response := .str V3.fullPrompt }
    (by have hemp : ("hello").isEmpty = false := by decide
        simp [V3.callRpgAssistantV3, V3.rpgAssistantFlow, V3.generateArgs, echoClient,
          validateFlowOutput, jsToString, jsTruthy, typeofIsString, asString, hemp]),
   (C5_response_is_primitive_string echoClient
      { auth := some { uid := "u1" }
        data := { userPrompt := some (.str "hello"), conversationHistory := none } }).2
    { response := .str (V2.fullPrompt "hello") }
    (by have hemp : ("hello").isEmpty = false := by decide
        simp [V2.callRpgAssistantV2, V2.rpgAssistantFlow, V2.generateArgs, echoClient,
          validateFlowOutput, jsTruthy, typeofIsString, asString, hemp])⟩

/-- C6: with a model client that returns the plain text f(args) for call
arguments args, every successful endpoint call returns exactly that text —
the envelope holds f(args) for the single traced call args, with no
wrapping or mutation, in both versions. -/
theorem C6_roundtrip_identity (f : GenerateArgs → String)
    (request : CallableRequest) (env3 env2 : ResponseEnvelope)
    (calls3 calls2 : List GenerateArgs)
    (h3 : V3.callRpgAssistantV3 (fun args => .ok { text := .str (f args) }) request =
      (.ok env3, calls3))
    (h2 : V2.callRpgAssistantV2 (fun args => .ok { text := .str (f args) }) request =
      (.ok env2, calls2)) :
    (∃ args, calls3 = [args] ∧ env3.response = .str (f args)) ∧
    (∃ args, calls2 = [args] ∧ env2.response = .str (f args)) := by
  obtain ⟨auth, data⟩ := request
  cases auth with
  | none =>
    simp [V3.callRpgAssistantV3] at h3
  | some a =>
    constructor
    · simp only [V3.callRpgAssistantV3] at h3
      split at h3
      · simp at h3
      · simp only [V3.rpgAssistantFlow, validateFlowOutput] at h3
        rw [Prod.mk.injEq] at h3
        obtain ⟨hok, hcalls⟩ := h3
        refine ⟨V3.generateArgs
          { userPrompt := asString data.userPrompt
            conversationHistory := data.conversationHistory }, hcalls.symm, ?_⟩
        have := (Except.ok.injEq _ _).mp hok.symm
        rw [this]
        simp [jsToString]
    · simp only [V2.callRpgAssistantV2] at h2
      split at h2
      · simp at h2
      · simp only [V2.rpgAssistantFlow, validateFlowOutput] at h2
        rw [Prod.mk.injEq] at h2
        obtain ⟨hok, hcalls⟩ := h2
        refine ⟨V2.generateArgs
          { userPrompt := asString data.userPrompt
            conversationHistory := data.conversationHistory }, hcalls.symm, ?_⟩
        have := (Except.ok.injEq _ _).mp hok.symm
        rw [this]

/-- C6 witness: concrete round trip through a prompt-echoing client. -/
theorem C6_roundtrip_witness :
    V3.callRpgAssistantV3 (fun args => .ok { text := .str (GenerateArgs.prompt args) })
        { auth := some { uid := "u1" }
          data := { userPrompt := some (.str "hello"), conversationHistory := none } } =
      (.ok { response := .str V3.fullPrompt },
       [V3.generateArgs { userPrompt := "hello", conversationHistory := none }]) ∧
    (∃ args, [V3.generateArgs { userPrompt := "hello", conversationHistory := none }] = [args] ∧
      (ResponseEnvelope.mk (.str V3.fullPrompt)).response = .str (GenerateArgs.prompt args)) := by
  have hemp : ("hello").isEmpty = false := by decide
  have h3 : V3.callRpgAssistantV3 (fun args => .ok { text := .str (GenerateArgs.prompt args) })
      { auth := some { uid := "u1" }
        data := { userPrompt := some (.str "hello"), conversationHistory := none } } =
      (.ok { response := .str V3.fullPrompt },
       [V3.generateArgs { userPrompt := "hello", conversationHistory := none }]) := by
    simp [V3.callRpgAssistantV3, V3.rpgAssistantFlow, V3.generateArgs, validateFlowOutput,
      jsToString, jsTruthy, typeofIsString, asString, hemp]
  have h2 : V2.callRpgAssistantV2 (fun args => .ok { text := .str (GenerateArgs.prompt args) })
      { auth := some { uid := "u1" }
        data := { userPrompt := some (.str "hello"), conversationHistory := none } } =
      (.ok { response := .str (V2.fullPrompt "hello") },
       [V2.generateArgs { userPrompt := "hello", conversationHistory := none }]) := by
    simp [V2.callRpgAssistantV2, V2.rpgAssistantFlow, V2.generateArgs, validateFlowOutput,
      jsTruthy, typeofIsString, asString, hemp]
  exact ⟨h3,
    (C6_roundtrip_identity GenerateArgs.prompt
      { auth := some { uid := "u1" }
        data := { userPrompt := some (.str "hello"), conversationHistory := none } }
      { response := .str V3.fullPrompt } { response := .str (V2.fullPrompt "hello") }
      [V3.generateArgs { userPrompt := "hello", conversationHistory := none }]
      [V2.generateArgs { userPrompt := "hello", conversationHistory := none }]
      h3 h2).1⟩

/-- The model-client trace of a valid authenticated V3 endpoint call. -/
theorem callV3_trace (client : ModelClient) (a : AuthContext) (s : String)
    (hs : s ≠ "") (hist : Option (List ConversationTurn)) :
    (V3.callRpgAssistantV3 client
        { auth := some a
          data := { userPrompt := some (.str s), conversationHistory := hist } }).2 =
      [V3.generateArgs { userPrompt := s, conversationHistory := hist }] := by
  have hg := guard_false_of_ne s hs
  simp only [V3.callRpgAssistantV3, hg]
  rcases hf : V3.rpgAssistantFlow client
      { userPrompt := asString (some (.str s)), conversationHistory := hist } with ⟨r, calls⟩
  have hcalls : calls = [V3.generateArgs { userPrompt := s, conversationHistory := hist }] := by
    have := congrArg Prod.snd hf
    rw [flowV3_calls] at this
    exact this.symm
  cases r <;> simp [hcalls]

/-- The model-client trace of a valid authenticated V2 endpoint call. -/
theorem callV2_trace (client : ModelClient) (a : AuthContext) (s : String)
    (hs : s ≠ "") (hist : Option (List ConversationTurn)) :
    (V2.callRpgAssistantV2 client
        { auth := some a
          data := { userPrompt := some (.str s), conversationHistory := hist } }).2 =
      [V2.generateArgs { userPrompt := s, conversationHistory := hist }] := by
  have hg := guard_false_of_ne s hs
  simp only [V2.callRpgAssistantV2, hg]
  rcases hf : V2.rpgAssistantFlow client
      { userPrompt := asString (some (.str s)), conversationHistory := hist } with ⟨r, calls⟩
  have hcalls : calls = [V2.generateArgs { userPrompt := s, conversationHistory := hist }] := by
    have := congrArg Prod.snd hf
    rw [flowV2_calls] at this
    exact this.symm
  cases r <;> simp [hcalls]

/-- C7: an authenticated call with a valid userPrompt and history [A, B, C]
makes exactly one model-client call, whose history field is [A, B, C] in
that order unmodified, and whose prompt field is the composite string —
which does not involve the history at all — in both versions. -/
theorem C7_history_passed_in_order (client : ModelClient) (a : AuthContext)
    (s : String) (hs : s ≠ "") (A B C : ConversationTurn) :
    (V3.callRpgAssistantV3 client
        { auth := some a
          data := { userPrompt := some (.str s)
                    conversationHistory := some [A, B, C] } }).2 =
      [{ prompt := V3.fullPrompt
         history := some [A, B, C]
         config := { temperature := 7 / 10, maxOutputTokens := 500 } }] ∧
    (V2.callRpgAssistantV2 client
        { auth := some a
          data := { userPrompt := some (.str s)
                    conversationHistory := some [A, B, C] } }).2 =
      [{ prompt := V2.fullPrompt s
         history := some [A, B, C]
         config := { temperature := 7 / 10, maxOutputTokens := 500 } }] := by
  rw [callV3_trace client a s hs (some [A, B, C]),
    callV2_trace client a s hs (some [A, B, C])]
  exact ⟨rfl, rfl⟩

/-- C7 witness: a concrete three-turn history reaches the client in order. -/
theorem C7_history_witness :
    ("hi" : String) ≠ "" ∧
    (V3.callRpgAssistantV3 echoClient
        { auth := some { uid := "u1" }
          data := { userPrompt := some (.str "hi")
                    conversationHistory :=
                      some [{ role := .user, parts := [{ text := "a" }] },
                            { role := .model, parts := [{ text := "b" }] },
                            { role := .user, parts := [{ text := "c" }] }] } }).2 =
      [{ prompt := V3.fullPrompt
         history := some [{ role := .user, parts := [{ text := "a" }] },
                          { role := .model, parts := [{ text := "b" }] },
                          { role := .user, parts := [{ text := "c" }] }]
         config := { temperature := 7 / 10, maxOutputTokens := 500 } }] :=
  ⟨by decide,
   (C7_history_passed_in_order echoClient { uid := "u1" } "hi" (by decide)
      { role := .user, parts := [{ text := "a" }] }
      { role := .model, parts := [{ text := "b" }] }
      { role := .user, parts := [{ text := "c" }] }).1⟩

/-- C10: two authenticated calls with identical payload and model client give
identical results and traces whatever the uid values, in both versions. -/
theorem C10_uid_noninterference (client : ModelClient)
    (u1 u2 : String) (data : RequestData) :
    V3.callRpgAssistantV3 client { auth := some { uid := u1 }, data := data } =
      V3.callRpgAssistantV3 client { auth := some { uid := u2 }, data := data } ∧
    V2.callRpgAssistantV2 client { auth := some { uid := u1 }, data := data } =
      V2.callRpgAssistantV2 client { auth := some { uid := u2 }, data := data } :=
  ⟨rfl, rfl⟩

end TangentRpg
